import Mathlib

/-!
Verification of the plan-to-ics repository (src/json_to_ics.py, src/filter_events.py).

The Python sources are shallowly embedded as executable Lean definitions:

* Python strings are Lean `String`s; `str.replace` with a one-character
  pattern is `replaceChar` (a single left-to-right pass over the input,
  replacement text never re-scanned, matching CPython semantics).
* `datetime.fromisoformat` is modelled by `parseChars` over the grammar
  actually exercised by this program: `YYYY-MM-DD` (date-only, midnight) and
  `YYYY-MM-DDTHH:MM:SS` with an optional explicit `+HH:MM`/`-HH:MM` offset
  suffix.  A literal `Z` suffix is handled exactly as in the source, by the
  textual replacement `Z -> +00:00` performed before parsing.  Field ranges
  are validated as CPython does (month/day against the calendar, 24h time,
  offset below 24 hours).
* `datetime` arithmetic (`astimezone`) uses the standard civil-calendar
  conversions `daysFromCivil`/`civilFromDays` on epoch seconds.
* `zoneinfo.ZoneInfo` is modelled by `Tz`: an identifier plus the zone's
  UTC offset (in minutes) as a function of a wall clock (used when a naive
  datetime is localized, fold 0) and as a function of an absolute instant
  (used when an instant is converted into the zone).
* Raised exceptions are `Except.error`; `datetime.now(timezone.utc)` is an
  injected `now : DT` argument.
* JSON records are structures of `Option` fields; Python truthiness of an
  optional string (`if start:`) is `pyStr`.
-/

namespace PlanToIcs

/-! ### Strings: single-character replacement (Python `str.replace`) -/

/-- One pass over a character list, expanding each character via `f`. -/
def mapEsc (f : Char → List Char) : List Char → List Char
  | [] => []
  | c :: cs => f c ++ mapEsc f cs

/-- Python `s.replace(c, r)` for a one-character pattern `c`: every
occurrence of `c` in `s` is replaced by `r`, in one pass over `s` (the
replacement text is never re-scanned). -/
def replaceChar (c : Char) (r : String) (s : String) : String :=
  ⟨mapEsc (fun a => if a = c then r.data else [a]) s.data⟩

/-- The source's `dt_str.replace("Z", "+00:00")` preprocessing step. -/
def replaceZ (s : String) : String := replaceChar 'Z' "+00:00" s

/-! ### Civil calendar arithmetic (for `datetime.astimezone`) -/

/-- Days since 1970-01-01 of the civil date `y-m-d` (Gregorian). -/
def daysFromCivil (y m d : Int) : Int :=
  let yy := if m ≤ 2 then y - 1 else y
  let era := Int.fdiv yy 400
  let yoe := yy - era * 400
  let mp := Int.fmod (m + 9) 12
  let doy := Int.fdiv (153 * mp + 2) 5 + d - 1
  let doe := yoe * 365 + Int.fdiv yoe 4 - Int.fdiv yoe 100 + doy
  era * 146097 + doe - 719468

/-- Civil date `(y, m, d)` of a count of days since 1970-01-01. -/
def civilFromDays (z0 : Int) : Int × Int × Int :=
  let z := z0 + 719468
  let era := Int.fdiv z 146097
  let doe := z - era * 146097
  let yoe := Int.fdiv (doe - Int.fdiv doe 1460 + Int.fdiv doe 36524 - Int.fdiv doe 146096) 365
  let y := yoe + era * 400
  let doy := doe - (365 * yoe + Int.fdiv yoe 4 - Int.fdiv yoe 100)
  let mp := Int.fdiv (5 * doy + 2) 153
  let d := doy - Int.fdiv (153 * mp + 2) 5 + 1
  let m := mp + (if mp < 10 then 3 else -9)
  (if m ≤ 2 then y + 1 else y, m, d)

/-- A wall-clock date-time (the fields of a Python `datetime`, without
timezone information). -/
structure DT where
  year : Nat
  month : Nat
  day : Nat
  hour : Nat
  minute : Nat
  second : Nat
deriving DecidableEq

/-- Seconds since the epoch of a wall clock read as UTC. -/
def toEpochSecs (t : DT) : Int :=
  86400 * daysFromCivil (t.year : Int) (t.month : Int) (t.day : Int)
    + 3600 * (t.hour : Int) + 60 * (t.minute : Int) + (t.second : Int)

/-- The UTC wall clock of an instant given as seconds since the epoch. -/
def fromEpochSecs (x : Int) : DT :=
  let days := Int.fdiv x 86400
  let rem := (Int.fmod x 86400).toNat
  let c := civilFromDays days
  ⟨c.1.toNat, c.2.1.toNat, c.2.2.toNat, rem / 3600, rem % 3600 / 60, rem % 60⟩

/-! ### Timestamp formatting (`strftime`) -/

/-- Two-digit zero-padded decimal (`%02d` for values below 100). -/
def pad2 (n : Nat) : String :=
  ⟨[Nat.digitChar (n / 10 % 10), Nat.digitChar (n % 10)]⟩

/-- Four-digit zero-padded decimal (`%04d` for values below 10000). -/
def pad4 (n : Nat) : String :=
  ⟨[Nat.digitChar (n / 1000 % 10), Nat.digitChar (n / 100 % 10),
    Nat.digitChar (n / 10 % 10), Nat.digitChar (n % 10)]⟩

/-- `strftime("%Y%m%dT%H%M%S")`. -/
def fmtBasic (t : DT) : String :=
  pad4 t.year ++ pad2 t.month ++ pad2 t.day ++ "T"
    ++ pad2 t.hour ++ pad2 t.minute ++ pad2 t.second

/-- `strftime("%Y%m%dT%H%M%SZ")`. -/
def fmtUtcZ (t : DT) : String := fmtBasic t ++ "Z"

/-! ### The ISO parser (`datetime.fromisoformat`, on the grammar used here) -/

/-- Decimal digit value of a character, if it is a digit. -/
def toDigit? (c : Char) : Option Nat :=
  if c.isDigit then some (c.toNat - 48) else none

/-- Two-digit decimal field. -/
def twoDig (a b : Char) : Option Nat :=
  match toDigit? a, toDigit? b with
  | some x, some y => some (x * 10 + y)
  | _, _ => none

/-- Four-digit decimal field. -/
def fourDig (a b c d : Char) : Option Nat :=
  match twoDig a b, twoDig c d with
  | some x, some y => some (x * 100 + y)
  | _, _ => none

/-- Gregorian leap year. -/
def isLeap (y : Nat) : Bool :=
  (y % 4 == 0 && y % 100 != 0) || y % 400 == 0

/-- Length of month `m` in year `y`. -/
def daysInMonth (y m : Nat) : Nat :=
  if m == 2 then (if isLeap y then 29 else 28)
  else if m == 4 || m == 6 || m == 9 || m == 11 then 30
  else 31

/-- Range validation of a civil date, as `datetime` performs it. -/
def validDate (y m d : Nat) : Bool :=
  1 ≤ y && y ≤ 9999 && 1 ≤ m && m ≤ 12 && 1 ≤ d && d ≤ daysInMonth y m

/-- Range validation of a time of day. -/
def validTime (h mi s : Nat) : Bool := h ≤ 23 && mi ≤ 59 && s ≤ 59

/-- A parsed date-time: wall-clock fields plus the explicit UTC offset in
minutes, when the string carried one (`None` models a naive datetime). -/
structure PDT where
  dt : DT
  off : Option Int
deriving DecidableEq

/-- UTC offset from a sign character and two two-digit fields. -/
def mkOff (sg : Char) (oh om : Nat) : Option Int :=
  if oh ≤ 23 && om ≤ 59 then
    if sg = '+' then some ((oh * 60 + om : Nat) : Int)
    else if sg = '-' then some (-((oh * 60 + om : Nat) : Int))
    else none
  else none

/-- `datetime.fromisoformat` on the textual encodings this program feeds it
(after its `Z -> +00:00` preprocessing): `YYYY-MM-DD`, or
`YYYY-MM-DDTHH:MM:SS` with an optional `+HH:MM`/`-HH:MM` suffix. -/
def parseChars : List Char → Option PDT
  | [y1, y2, y3, y4, '-', m1, m2, '-', da1, da2] =>
    match fourDig y1 y2 y3 y4, twoDig m1 m2, twoDig da1 da2 with
    | some y, some mo, some da =>
      if validDate y mo da then some ⟨⟨y, mo, da, 0, 0, 0⟩, none⟩ else none
    | _, _, _ => none
  | y1 :: y2 :: y3 :: y4 :: '-' :: m1 :: m2 :: '-' :: da1 :: da2 :: 'T' ::
      h1 :: h2 :: ':' :: mi1 :: mi2 :: ':' :: s1 :: s2 :: rest =>
    match fourDig y1 y2 y3 y4, twoDig m1 m2, twoDig da1 da2,
          twoDig h1 h2, twoDig mi1 mi2, twoDig s1 s2 with
    | some y, some mo, some da, some h, some mi, some se =>
      if validDate y mo da && validTime h mi se then
        match rest with
        | [] => some ⟨⟨y, mo, da, h, mi, se⟩, none⟩
        | [sg, o1, o2, ':', o3, o4] =>
          match twoDig o1 o2, twoDig o3 o4 with
          | some oh, some om =>
            match mkOff sg oh om with
            | some off => some ⟨⟨y, mo, da, h, mi, se⟩, some off⟩
            | none => none
          | _, _ => none
        | _ => none
      else none
    | _, _, _, _, _, _ => none
  | _ => none

/-! ### Time zones and the Timestamp Normalizer -/

/-- A `zoneinfo.ZoneInfo`: an identifier plus the zone's UTC offset in
minutes, as a function of a wall clock (localizing a naive datetime,
fold 0) and as a function of an instant in epoch seconds (converting an
absolute instant into the zone). -/
structure Tz where
  id : String
  offAtWall : DT → Int
  offAtInstant : Int → Int

/-- A fixed-offset zone (offset in minutes). -/
def mkFixedTz (id : String) (off : Int) : Tz :=
  ⟨id, fun _ => off, fun _ => off⟩

/-- Error taxonomy relevant to the embedded fragment. -/
inductive IcsErr where
  | malformedTimestamp
deriving DecidableEq

/-- Decidable equality of `Except` results, for evaluating the model at
concrete inputs. -/
instance exceptDecEq {ε α : Type} [DecidableEq ε] [DecidableEq α] :
    DecidableEq (Except ε α)
  | .error e₁, .error e₂ =>
    if h : e₁ = e₂ then isTrue (by rw [h]) else isFalse (by intro hh; cases hh; exact h rfl)
  | .error _, .ok _ => isFalse (by intro hh; cases hh)
  | .ok _, .error _ => isFalse (by intro hh; cases hh)
  | .ok a₁, .ok a₂ =>
    if h : a₁ = a₂ then isTrue (by rw [h]) else isFalse (by intro hh; cases hh; exact h rfl)

/-- Shared tail of `parse_iso_as_utc_z` and the first branch of
`parse_date_as_utc_z`: localize a naive datetime in `tz` (explicit offsets
win), convert to UTC, format with a trailing `Z`. -/
def utcRenderOf (p : PDT) (tz : Tz) : String :=
  let off : Int :=
    match p.off with
    | some o => o
    | none => tz.offAtWall p.dt
  fmtUtcZ (fromEpochSecs (toEpochSecs p.dt - off * 60))

/-- `json_to_ics.parse_iso_with_tzid`.  The source parses, attaches the
fallback zone when the datetime is naive, and then renders
`dt.strftime("%Y%m%dT%H%M%S")` paired with `tzid`.  `strftime` reads only
the wall-clock fields, which `dt.replace(tzinfo=tz)` does not change, so
the rendered value is the parsed wall clock itself in every case. -/
def parse_iso_with_tzid (dt_str : String) (tz : Tz) (tzid : String) :
    Except IcsErr (String × String) :=
  match parseChars (replaceZ dt_str).data with
  | none => .error .malformedTimestamp
  | some p => .ok (fmtBasic p.dt, tzid)

/-- `json_to_ics.parse_iso_as_utc_z`. -/
def parse_iso_as_utc_z (dt_str : String) (naive_tz : Tz) : Except IcsErr String :=
  match parseChars (replaceZ dt_str).data with
  | none => .error .malformedTimestamp
  | some p => .ok (utcRenderOf p naive_tz)

/-- `json_to_ics.parse_date_as_utc_z`: same try-branch as
`parse_iso_as_utc_z`; on failure the source retries `fromisoformat` on the
original string and renders the naive wall clock with a `Z` suffix without
converting. -/
def parse_date_as_utc_z (date_str : String) (naive_tz : Tz) : Except IcsErr String :=
  match parseChars (replaceZ date_str).data with
  | some p => .ok (utcRenderOf p naive_tz)
  | none =>
    match parseChars date_str.data with
    | some p => .ok (fmtBasic p.dt ++ "Z")
    | none => .error .malformedTimestamp

/-! ### Text Escaper -/

/-- `json_to_ics.escape_text`: the source's ordered chain of `str.replace`
calls (backslash, then semicolon, then comma, then newline). -/
def escape_text (value : String) : String :=
  replaceChar '\n' "\\n"
    (replaceChar ',' "\\,"
      (replaceChar ';' "\\;"
        (replaceChar '\\' "\\\\" value)))

/-! ### Python string methods, as kernel-computable data-level functions -/

/-- Python `str.upper` (ASCII case mapping, as used by this program). -/
def pyUpper (s : String) : String := ⟨s.data.map Char.toUpper⟩

/-- Python `str.lower` (ASCII case mapping, as used by this program). -/
def pyLower (s : String) : String := ⟨s.data.map Char.toLower⟩

/-- The whitespace characters Python `str.strip()` removes. -/
def isPySpace (c : Char) : Bool :=
  c == ' ' || c == '\t' || c == '\n' || c == '\r' || c == '\x0b' || c == '\x0c'

/-- Python `str.strip()`: drop whitespace from both ends. -/
def pyStrip (s : String) : String :=
  ⟨((s.data.dropWhile isPySpace).reverse.dropWhile isPySpace).reverse⟩

/-- Python `str.split(sep)` for a one-character separator: `""` yields
`[""]`, adjacent separators yield empty parts. -/
def splitOnC (sep : Char) : List Char → List (List Char)
  | [] => [[]]
  | c :: cs =>
    let r := splitOnC sep cs
    if c = sep then [] :: r
    else
      match r with
      | h :: t => (c :: h) :: t
      | [] => [[c]]

/-! ### Event records and the Recurrence Encoder -/

/-- The `rrule` sub-record. -/
structure Rrule where
  freq : Option String
  interval : Option Int
  «until» : Option String
deriving DecidableEq

/-- One input event record (the fields `json_to_ics.py` reads). -/
structure EventRec where
  start : Option String
  «end» : Option String
  rrule : Option Rrule
  eventType : Option String
  title : Option String
  group : Option String
  instructor : Option String
  faculty : Option String
  room : Option String
deriving DecidableEq

/-- Python truthiness of an optional string: `None` and `""` are falsy. -/
def pyStr : Option String → Option String
  | some s => if s = "" then none else some s
  | none => none

/-- The `FREQ=` component contributed by a recurrence sub-record. -/
def freqPart (r : Rrule) : List String :=
  match pyStr r.freq with
  | some f => ["FREQ=" ++ pyUpper f]
  | none => []

/-- The `INTERVAL=` component contributed by a recurrence sub-record
(`if interval:` makes an integer 0 falsy). -/
def intervalPart (r : Rrule) : List String :=
  match r.interval with
  | some i => if i = 0 then [] else ["INTERVAL=" ++ toString i]
  | none => []

/-- `json_to_ics.build_rrule`. -/
def build_rrule (ev : EventRec) (naive_tz : Tz) : Except IcsErr (Option String) :=
  match ev.rrule with
  | none => .ok none
  | some r =>
    match pyStr r.«until» with
    | some u =>
      match parse_date_as_utc_z u naive_tz with
      | .error e => .error e
      | .ok z =>
        .ok (some (String.intercalate ";" (freqPart r ++ intervalPart r ++ ["UNTIL=" ++ z])))
    | none =>
      let parts := freqPart r ++ intervalPart r
      .ok (if parts.isEmpty then none else some (String.intercalate ";" parts))

/-! ### Per-event block assembly (`build_event`) -/

/-- `event.get("eventType") or event.get("title") or "Zajecia"`. -/
def titleOf (ev : EventRec) : String :=
  match pyStr ev.eventType with
  | some t => t
  | none =>
    match pyStr ev.title with
    | some t => t
    | none => "Zajecia"

/-- `event.get("group") or ""`. -/
def groupOf (ev : EventRec) : String := (pyStr ev.group).getD ""

/-- `f"{title} ({group})"`. -/
def summaryOf (ev : EventRec) : String := titleOf ev ++ " (" ++ groupOf ev ++ ")"

/-- The `LOCATION` line, emitted only when the room field is truthy. -/
def locationLines (ev : EventRec) : List String :=
  match pyStr ev.room with
  | some r => ["LOCATION:" ++ escape_text r]
  | none => []

/-- The description parts (instructor, then faculty), each when truthy. -/
def descParts (ev : EventRec) : List String :=
  (match pyStr ev.instructor with
   | some i => ["Prowadzacy: " ++ i]
   | none => []) ++
  (match pyStr ev.faculty with
   | some f => ["Faculty: " ++ f]
   | none => [])

/-- The `DESCRIPTION` line, joining the parts with a newline, when any. -/
def descriptionLines (ev : EventRec) : List String :=
  if (descParts ev).isEmpty then []
  else ["DESCRIPTION:" ++ escape_text (String.intercalate "\n" (descParts ev))]

/-- The `DTSTART`/`DTEND` handling of `build_event` for one field: nothing
when the field is absent/empty, otherwise the TZID form or the UTC form
depending on the mode flag; a parse failure propagates as an error. -/
def dtLines (name : String) (o : Option String) (tz : Tz) (useTzid : Bool)
    (tzid : String) : Except IcsErr (List String) :=
  match o with
  | none => .ok []
  | some s =>
    if useTzid then
      match parse_iso_with_tzid s tz tzid with
      | .error e => .error e
      | .ok (v, t) => .ok [name ++ (";TZID=" ++ (t ++ (":" ++ v)))]
    else
      match parse_iso_as_utc_z s tz with
      | .error e => .error e
      | .ok v => .ok [name ++ (":" ++ v)]

/-- The `RRULE` line, when a rule string was produced. -/
def rruleLines : Option String → List String
  | some s => ["RRULE:" ++ s]
  | none => []

/-- `json_to_ics.build_event`.  `now` is the injected generation-time
clock (`datetime.now(timezone.utc)`), read once per block. -/
def build_event (uid_namespace key : String) (ev : EventRec) (naive_tz : Tz)
    (useTzid : Bool) (tzid : String) (now : DT) : Except IcsErr (List String) :=
  match dtLines "DTSTART" (pyStr ev.start) naive_tz useTzid tzid with
  | .error e => .error e
  | .ok sl =>
    match dtLines "DTEND" (pyStr ev.«end») naive_tz useTzid tzid with
    | .error e => .error e
    | .ok el =>
      match build_rrule ev naive_tz with
      | .error e => .error e
      | .ok rr =>
        .ok (["BEGIN:VEVENT",
              "UID:" ++ (key ++ "@" ++ uid_namespace),
              "DTSTAMP:" ++ fmtUtcZ now]
          ++ sl ++ el
          ++ ["SUMMARY:" ++ escape_text (summaryOf ev)]
          ++ locationLines ev ++ descriptionLines ev
          ++ rruleLines rr
          ++ ["END:VEVENT"])

/-! ### The main loop over the input mapping -/

/-- One entry value of the input mapping: a well-formed record, or any
other JSON value (which `main` skips via `isinstance(ev, dict)`). -/
inductive Item where
  | record (ev : EventRec)
  | other
deriving DecidableEq

/-- The event-building loop of `json_to_ics.main`: skip non-record
entries, build a block per record, abort on the first raised error. -/
def buildAll (ns : String) (tz : Tz) (useTzid : Bool) (tzid : String) (now : DT) :
    List (String × Item) → Except IcsErr (List (List String))
  | [] => .ok []
  | (_, .other) :: rest => buildAll ns tz useTzid tzid now rest
  | (k, .record ev) :: rest =>
    match build_event ns k ev tz useTzid tzid now with
    | .error e => .error e
    | .ok b =>
      match buildAll ns tz useTzid tzid now rest with
      | .error e => .error e
      | .ok bs => .ok (b :: bs)

/-- `main`'s run with the per-run UID namespace derived from the absolute
input path by a stable hash (`uuid.uuid5(NAMESPACE_URL, abspath).hex`,
abstracted as the pure function `hash`). -/
def runEngine (hash : String → String) (absInput : String) (tz : Tz)
    (useTzid : Bool) (tzid : String) (now : DT) (items : List (String × Item)) :
    Except IcsErr (List (List String)) :=
  buildAll (hash absInput) tz useTzid tzid now items

/-- The total `main` reports (`len(events)`). -/
def runCount (ns : String) (tz : Tz) (useTzid : Bool) (tzid : String) (now : DT)
    (items : List (String × Item)) : Except IcsErr Nat :=
  match buildAll ns tz useTzid tzid now items with
  | .error e => .error e
  | .ok bs => .ok bs.length

/-- The keys of the well-formed records of the input mapping, in order. -/
def recKeys : List (String × Item) → List String
  | [] => []
  | (k, .record _) :: rest => k :: recKeys rest
  | (_, .other) :: rest => recKeys rest

/-! ### filter_events.py -/

/-- The fields `should_include_event` reads. -/
structure FilterEvent where
  faculty : Option String
  group : Option String
deriving DecidableEq

/-- `filter_events._tokenize_groups`: replace `,` by `/`, split on `/`,
trim each part, keep the non-empty tokens. -/
def tokenize_groups (raw : String) : List String :=
  if raw = "" then []
  else
    (splitOnC '/' (replaceChar ',' "/" raw).data).filterMap (fun part =>
      let token := pyStrip ⟨part⟩
      if token = "" then none else some token)

/-- `filter_events.should_include_event`. -/
def should_include_event (ev : FilterEvent)
    (selected_faculty lk_group l_group p_group : String) : Bool :=
  if ev.faculty ≠ some selected_faculty then false
  else
    let group_value := pyStrip (ev.group.getD "")
    let tokens := tokenize_groups group_value
    if tokens.isEmpty then false
    else if tokens.any (fun tok => pyUpper tok == "W") then true
    else
      let wanted := [pyLower lk_group, pyLower l_group, pyLower p_group]
      tokens.any (fun tok => wanted.contains (pyLower tok))

/-! ### The spec's description of local-with-zone rendering (for C2) -/

/-- The rendering the specification describes for local-with-zone mode, as
stated in its words: resolve the string to an absolute instant (explicit
offset, else the fallback zone), then render that instant's wall-clock
representation in the fallback zone as `YYYYMMDDTHHMMSS`.  This definition
follows the spec's words and exists to be compared with the source's
`parse_iso_with_tzid`. -/
def specLocalRender (dt_str : String) (tz : Tz) : Option String :=
  match parseChars (replaceZ dt_str).data with
  | none => none
  | some p =>
    let off : Int :=
      match p.off with
      | some o => o
      | none => tz.offAtWall p.dt
    let instant := toEpochSecs p.dt - off * 60
    some (fmtBasic (fromEpochSecs (instant + tz.offAtInstant instant * 60)))

/-! ### Verification-layer definitions (line prefixes, escape map) -/

/-- Whether `p` is a leading substring of `l` (character lists). -/
def startsWithL : List Char → List Char → Bool
  | [], _ => true
  | _ :: _, [] => false
  | p :: ps, c :: cs => p == c && startsWithL ps cs

/-- Whether the line `l` starts with the field-name prefix `p`. -/
def lineHas (p l : String) : Bool := startsWithL p.data l.data

/-- The lines of a block carrying the field-name prefix `p`. -/
def linesWith (p : String) (ls : List String) : List String :=
  ls.filter (fun l => lineHas p l)

/-- The per-character escape map the ordered replacement chain realizes. -/
def escChar (c : Char) : List Char :=
  if c = '\\' then ['\\', '\\']
  else if c = ';' then ['\\', ';']
  else if c = ',' then ['\\', ',']
  else if c = '\n' then ['\\', 'n']
  else [c]

/-! ## Verification layer: string lemmas -/

/-- Appending strings appends their character data. -/
theorem str_data_append (a b : String) : (a ++ b).data = a.data ++ b.data := by
  cases a; cases b; rfl

theorem startsWithL_append (ps qs rs : List Char) :
    startsWithL ps (qs ++ rs)
      = (startsWithL (ps.take qs.length) qs && startsWithL (ps.drop qs.length) rs) := by
  induction qs generalizing ps with
  | nil => simp [startsWithL]
  | cons q qs ih =>
    cases ps with
    | nil => simp [startsWithL]
    | cons p ps => simp [startsWithL, ih, Bool.and_assoc]

theorem lineHas_concat (p q x : String) :
    lineHas p (q ++ x)
      = (startsWithL (p.data.take q.length) q.data
          && startsWithL (p.data.drop q.length) x.data) := by
  show startsWithL p.data (q ++ x).data = _
  rw [str_data_append, startsWithL_append]
  rfl

theorem startsWithL_refl (l : List Char) : startsWithL l l = true := by
  induction l with
  | nil => rfl
  | cons c cs ih => simp [startsWithL, ih]

/-- A line built from prefix `p` carries prefix `p`. -/
theorem lineHas_self (p x : String) : lineHas p (p ++ x) = true := by
  rw [lineHas_concat]
  rw [show p.length = p.data.length from rfl, List.take_length, List.drop_length,
    startsWithL_refl]
  simp [startsWithL]

/-- A line built from a different, incompatible prefix does not carry `p`. -/
theorem lineHas_false (p q x : String)
    (h : startsWithL (p.data.take q.length) q.data = false) :
    lineHas p (q ++ x) = false := by
  rw [lineHas_concat, h, Bool.false_and]

theorem linesWith_append (p : String) (a b : List String) :
    linesWith p (a ++ b) = linesWith p a ++ linesWith p b :=
  List.filter_append _ _

/-! ## Verification layer: the escaper as a single character map -/

theorem mapEsc_append (f : Char → List Char) (l₁ l₂ : List Char) :
    mapEsc f (l₁ ++ l₂) = mapEsc f l₁ ++ mapEsc f l₂ := by
  induction l₁ with
  | nil => rfl
  | cons c cs ih => simp [mapEsc, ih]

/-- The chained replacements amount to one pass of `escChar` over the
input: each input character is escaped exactly once, and output of an
earlier replacement is never re-escaped by a later one. -/
theorem escape_text_eq_mapEsc (s : String) : escape_text s = ⟨mapEsc escChar s.data⟩ := by
  have key : ∀ l : List Char,
      mapEsc (fun a => if a = '\n' then "\\n".data else [a])
        (mapEsc (fun a => if a = ',' then "\\,".data else [a])
          (mapEsc (fun a => if a = ';' then "\\;".data else [a])
            (mapEsc (fun a => if a = '\\' then "\\\\".data else [a]) l)))
        = mapEsc escChar l := by
    intro l
    induction l with
    | nil => rfl
    | cons c cs ih =>
      by_cases h1 : c = '\\'
      · subst h1; simp [mapEsc, mapEsc_append, escChar, ih]
      · by_cases h2 : c = ';'
        · subst h2; simp [mapEsc, mapEsc_append, escChar, ih]
        · by_cases h3 : c = ','
          · subst h3; simp [mapEsc, mapEsc_append, escChar, ih]
          · by_cases h4 : c = '\n'
            · subst h4; simp [mapEsc, mapEsc_append, escChar, ih]
            · simp [mapEsc, mapEsc_append, escChar, h1, h2, h3, h4, ih]
  exact congrArg String.mk (key s.data)

/-- The escaper is a string homomorphism. -/
theorem escape_text_append (a b : String) :
    escape_text (a ++ b) = escape_text a ++ escape_text b := by
  rw [escape_text_eq_mapEsc, escape_text_eq_mapEsc, escape_text_eq_mapEsc,
    str_data_append, mapEsc_append]
  rfl
/-! ## Verification layer: timestamp parsing lemmas -/

/-- Whatever the UTC path of the Timestamp Normalizer renders, the
`UNTIL` path (`parse_date_as_utc_z`) renders identically: its first
branch is the same computation. -/
theorem parse_date_of_parse_iso (u : String) (tz : Tz) (z : String)
    (h : parse_iso_as_utc_z u tz = .ok z) : parse_date_as_utc_z u tz = .ok z := by
  unfold parse_iso_as_utc_z at h
  unfold parse_date_as_utc_z
  cases hp : parseChars (replaceZ u).data with
  | none => rw [hp] at h; exact absurd h (by simp)
  | some p => rw [hp] at h; exact h

/-- The last character of a two-digit field is a decimal digit. -/
theorem pad2_last (n : Nat) : (pad2 n).data.getLast? = some (Nat.digitChar (n % 10)) := rfl

theorem digitChar_mod_ne_Z (n : Nat) : Nat.digitChar (n % 10) ≠ 'Z' := by
  have h : n % 10 < 10 := Nat.mod_lt _ (by omega)
  generalize n % 10 = m at h ⊢
  interval_cases m <;> decide

/-- The basic (no-`Z`) format ends in the seconds digit. -/
theorem fmtBasic_last (t : DT) :
    (fmtBasic t).data.getLast? = some (Nat.digitChar (t.second % 10)) := by
  unfold fmtBasic
  rw [str_data_append]
  rw [List.getLast?_append_of_ne_nil _ (by simp [pad2])]
  exact pad2_last t.second

/-- C5: with an explicit zero-offset suffix, the UTC-mode rendering never
consults the fallback zone. -/
theorem c5_utc_mode_zone_independent (s : String) (p : PDT) (tz₁ tz₂ : Tz)
    (hp : parseChars (replaceZ s).data = some p) (hoff : p.off = some 0) :
    parse_iso_as_utc_z s tz₁ = parse_iso_as_utc_z s tz₂ := by
  simp [parse_iso_as_utc_z, hp, utcRenderOf, hoff]
/-! ## Claim C6 (text escaper) -/

/-- C6 counterexample: the escape of a backslash followed by a comma is
the four-character string backslash backslash backslash comma, not five
characters as the claim states. -/
theorem c6_counterexample :
    ¬ (escape_text "\\,").data.length = 5 ∧ escape_text "\\," = "\\\\\\," := by
  exact ⟨by decide, by decide⟩

/-- C6 (amended): the escaper performs the replacements in the order
backslash, semicolon, comma, newline, which amounts to escaping each input
character exactly once (one pass of `escChar`, never re-escaping earlier
output); an input consisting of a backslash immediately followed by a
comma yields the four characters backslash backslash backslash comma and
is not double-escaped. -/
theorem c6_escape_text_single_pass :
    (∀ s : String, escape_text s = ⟨mapEsc escChar s.data⟩)
    ∧ escape_text "\\," = "\\\\\\,"
    ∧ (escape_text "\\,").data.length = 4 :=
  ⟨escape_text_eq_mapEsc, by decide, by decide⟩

/-! ## Claim C5 (zero-offset timestamps ignore the fallback zone) -/

/-- C5 witness: a concrete zero-offset timestamp renders identically
under two very different fallback zones. -/
theorem c5_witness :
    parse_iso_as_utc_z "2025-10-06T09:15:00Z" (mkFixedTz "A" 60)
      = parse_iso_as_utc_z "2025-10-06T09:15:00Z" (mkFixedTz "B" (-300)) :=
  c5_utc_mode_zone_independent "2025-10-06T09:15:00Z" ⟨⟨2025, 10, 6, 9, 15, 0⟩, some 0⟩
    (mkFixedTz "A" 60) (mkFixedTz "B" (-300)) (by decide) rfl

/-! ## Claim C2 (local-with-zone rendering) -/

/-- C2 counterexample: for the accepted string 2025-10-06T09:15:00Z (an
explicit zero-offset instant) and the valid fixed fallback zone Etc/GMT-2
(UTC+02:00), local-with-zone mode renders 20251006T091500 — the string's
own wall clock — paired with TZID Etc/GMT-2, while that instant's
wall-clock representation in the fallback zone is 20251006T111500. -/
theorem c2_counterexample :
    parse_iso_with_tzid "2025-10-06T09:15:00Z" (mkFixedTz "Etc/GMT-2" 120) "Etc/GMT-2"
      = .ok ("20251006T091500", "Etc/GMT-2")
    ∧ specLocalRender "2025-10-06T09:15:00Z" (mkFixedTz "Etc/GMT-2" 120)
      = some "20251006T111500"
    ∧ ("20251006T091500" : String) ≠ "20251006T111500" :=
  ⟨rfl, rfl, by decide⟩

/-- C2 (amended): for every accepted date-time string, local-with-zone
mode renders the parsed string's own wall-clock fields as
YYYYMMDDTHHMMSS (no trailing Z character), paired with the fallback
zone's identifier as the TZID parameter; the instant is not converted
into the fallback zone, so for a string carrying an explicit UTC-offset
suffix the rendered wall clock is the one of the original offset, not
the fallback zone's. -/
theorem c2_local_mode_renders_parsed_wall_clock (s : String) (tz : Tz) (tzid : String)
    (p : PDT) (hp : parseChars (replaceZ s).data = some p) :
    parse_iso_with_tzid s tz tzid = .ok (fmtBasic p.dt, tzid)
    ∧ (fmtBasic p.dt).data.getLast? ≠ some 'Z' := by
  constructor
  · simp [parse_iso_with_tzid, hp]
  · rw [fmtBasic_last]
    simp [digitChar_mod_ne_Z p.dt.second]

/-- C2 witness: the amended statement at a concrete naive input. -/
theorem c2_witness :
    parse_iso_with_tzid "2025-10-06T09:15:00" (mkFixedTz "Europe/Warsaw" 120) "Europe/Warsaw"
      = .ok (fmtBasic ⟨2025, 10, 6, 9, 15, 0⟩, "Europe/Warsaw")
    ∧ (fmtBasic (⟨2025, 10, 6, 9, 15, 0⟩ : DT)).data.getLast? ≠ some 'Z' :=
  c2_local_mode_renders_parsed_wall_clock "2025-10-06T09:15:00"
    (mkFixedTz "Europe/Warsaw" 120) "Europe/Warsaw"
    ⟨⟨2025, 10, 6, 9, 15, 0⟩, none⟩ (by decide)
/-! ## Verification layer: block structure lemmas -/

/-- Possible shapes of a `DTSTART`/`DTEND` segment: absent, or a single
line carrying the field name as its prefix. -/
theorem dtLines_shape (name : String) (o : Option String) (tz : Tz) (b : Bool)
    (tzid : String) (ls : List String) (h : dtLines name o tz b tzid = .ok ls) :
    ls = [] ∨ ∃ x, ls = [name ++ x] := by
  unfold dtLines at h
  cases o with
  | none => cases h; exact Or.inl rfl
  | some s =>
    cases b with
    | true =>
      simp only [if_pos] at h
      cases hp : parse_iso_with_tzid s tz tzid with
      | error e => rw [hp] at h; exact absurd h (by simp)
      | ok vt => rw [hp] at h; cases h; exact Or.inr ⟨_, rfl⟩
    | false =>
      simp only [Bool.false_eq_true, if_neg] at h
      cases hp : parse_iso_as_utc_z s tz with
      | error e => rw [hp] at h; exact absurd h (by simp)
      | ok v => rw [hp] at h; cases h; exact Or.inr ⟨_, rfl⟩

/-- A `DTSTART`/`DTEND` segment that succeeded in one mode succeeds in the
other as well (both modes fail on exactly the parse failures). -/
theorem dtLines_ok_mode (name : String) (o : Option String) (tz : Tz) (b₁ b₂ : Bool)
    (tzid : String) (ls₁ : List String) (h : dtLines name o tz b₁ tzid = .ok ls₁) :
    ∃ ls₂, dtLines name o tz b₂ tzid = .ok ls₂ := by
  cases o with
  | none => exact ⟨[], rfl⟩
  | some s =>
    cases hp : parseChars (replaceZ s).data with
    | none =>
      exfalso
      cases b₁ <;>
        simp [dtLines, parse_iso_with_tzid, parse_iso_as_utc_z, hp] at h
    | some p =>
      cases b₂ with
      | true =>
        exact ⟨[name ++ (";TZID=" ++ (tzid ++ (":" ++ fmtBasic p.dt)))],
          by simp [dtLines, parse_iso_with_tzid, hp]⟩
      | false =>
        exact ⟨[name ++ (":" ++ utcRenderOf p tz)],
          by simp [dtLines, parse_iso_as_utc_z, hp]⟩

/-- Shape of the `LOCATION` segment. -/
theorem locationLines_shape (ev : EventRec) :
    locationLines ev = [] ∨ ∃ x, locationLines ev = ["LOCATION:" ++ x] := by
  unfold locationLines
  cases pyStr ev.room with
  | none => exact Or.inl rfl
  | some r => exact Or.inr ⟨_, rfl⟩

/-- Shape of the `DESCRIPTION` segment. -/
theorem descriptionLines_shape (ev : EventRec) :
    descriptionLines ev = [] ∨ ∃ x, descriptionLines ev = ["DESCRIPTION:" ++ x] := by
  unfold descriptionLines
  split
  · exact Or.inl rfl
  · exact Or.inr ⟨_, rfl⟩

/-- Shape of the `RRULE` segment. -/
theorem rruleLines_shape (rr : Option String) :
    rruleLines rr = [] ∨ ∃ x, rruleLines rr = ["RRULE:" ++ x] := by
  cases rr with
  | none => exact Or.inl rfl
  | some s => exact Or.inr ⟨_, rfl⟩

/-- A segment of either shape contributes no line with an incompatible
field-name prefix. -/
theorem linesWith_shape_nil (p name : String) (ls : List String)
    (hs : ls = [] ∨ ∃ x, ls = [name ++ x])
    (hfalse : startsWithL (p.data.take name.length) name.data = false) :
    linesWith p ls = [] := by
  rcases hs with rfl | ⟨x, rfl⟩
  · rfl
  · simp [linesWith, List.filter, lineHas_false _ _ _ hfalse]

/-- Decomposition of a successful `build_event` run into its segments. -/
theorem build_event_ok_elim (ns key : String) (ev : EventRec) (tz : Tz) (b : Bool)
    (tzid : String) (now : DT) (lines : List String)
    (h : build_event ns key ev tz b tzid now = .ok lines) :
    ∃ sl el rr,
      dtLines "DTSTART" (pyStr ev.start) tz b tzid = .ok sl
      ∧ dtLines "DTEND" (pyStr ev.«end») tz b tzid = .ok el
      ∧ build_rrule ev tz = .ok rr
      ∧ lines = ["BEGIN:VEVENT", "UID:" ++ (key ++ "@" ++ ns), "DTSTAMP:" ++ fmtUtcZ now]
          ++ sl ++ el ++ ["SUMMARY:" ++ escape_text (summaryOf ev)]
          ++ locationLines ev ++ descriptionLines ev ++ rruleLines rr ++ ["END:VEVENT"] := by
  unfold build_event at h
  cases h1 : dtLines "DTSTART" (pyStr ev.start) tz b tzid with
  | error e => rw [h1] at h; exact absurd h (by simp)
  | ok sl =>
    rw [h1] at h
    cases h2 : dtLines "DTEND" (pyStr ev.«end») tz b tzid with
    | error e => rw [h2] at h; exact absurd h (by simp)
    | ok el =>
      rw [h2] at h
      cases h3 : build_rrule ev tz with
      | error e => rw [h3] at h; exact absurd h (by simp)
      | ok rr =>
        rw [h3] at h
        simp only [Except.ok.injEq] at h
        exact ⟨sl, el, rr, rfl, rfl, rfl, h.symm⟩
/-- The `RRULE` segment consists exactly of its own `RRULE:`-prefixed
lines. -/
theorem linesWith_rruleLines (rr : Option String) :
    linesWith "RRULE:" (rruleLines rr) = rruleLines rr := by
  cases rr with
  | none => rfl
  | some s => simp [rruleLines, linesWith, List.filter, lineHas_self]

/-- A successful block contains exactly one `UID:` line, formed from the
record key and the run namespace. -/
theorem build_event_linesWith_UID (ns key : String) (ev : EventRec) (tz : Tz)
    (b : Bool) (tzid : String) (now : DT) (lines : List String)
    (h : build_event ns key ev tz b tzid now = .ok lines) :
    linesWith "UID:" lines = ["UID:" ++ (key ++ "@" ++ ns)] := by
  obtain ⟨sl, el, rr, hsl, hel, hrr, rfl⟩ := build_event_ok_elim _ _ _ _ _ _ _ _ h
  simp only [linesWith_append]
  rw [linesWith_shape_nil "UID:" "DTSTART" sl (dtLines_shape _ _ _ _ _ _ hsl) (by decide)]
  rw [linesWith_shape_nil "UID:" "DTEND" el (dtLines_shape _ _ _ _ _ _ hel) (by decide)]
  rw [linesWith_shape_nil "UID:" "LOCATION:" _ (locationLines_shape ev) (by decide)]
  rw [linesWith_shape_nil "UID:" "DESCRIPTION:" _ (descriptionLines_shape ev) (by decide)]
  rw [linesWith_shape_nil "UID:" "RRULE:" _ (rruleLines_shape rr) (by decide)]
  simp [linesWith, List.filter, lineHas_self,
    lineHas_false _ _ _
      (by decide : startsWithL ("UID:".data.take "DTSTAMP:".length) "DTSTAMP:".data = false),
    lineHas_false _ _ _
      (by decide : startsWithL ("UID:".data.take "SUMMARY:".length) "SUMMARY:".data = false),
    (by decide : lineHas "UID:" "BEGIN:VEVENT" = false),
    (by decide : lineHas "UID:" "END:VEVENT" = false)]

/-- A successful block contains exactly one `SUMMARY:` line: the escaped
`{title-or-default} ({group})`. -/
theorem build_event_linesWith_SUMMARY (ns key : String) (ev : EventRec) (tz : Tz)
    (b : Bool) (tzid : String) (now : DT) (lines : List String)
    (h : build_event ns key ev tz b tzid now = .ok lines) :
    linesWith "SUMMARY:" lines = ["SUMMARY:" ++ escape_text (summaryOf ev)] := by
  obtain ⟨sl, el, rr, hsl, hel, hrr, rfl⟩ := build_event_ok_elim _ _ _ _ _ _ _ _ h
  simp only [linesWith_append]
  rw [linesWith_shape_nil "SUMMARY:" "DTSTART" sl (dtLines_shape _ _ _ _ _ _ hsl) (by decide)]
  rw [linesWith_shape_nil "SUMMARY:" "DTEND" el (dtLines_shape _ _ _ _ _ _ hel) (by decide)]
  rw [linesWith_shape_nil "SUMMARY:" "LOCATION:" _ (locationLines_shape ev) (by decide)]
  rw [linesWith_shape_nil "SUMMARY:" "DESCRIPTION:" _ (descriptionLines_shape ev) (by decide)]
  rw [linesWith_shape_nil "SUMMARY:" "RRULE:" _ (rruleLines_shape rr) (by decide)]
  simp [linesWith, List.filter, lineHas_self,
    lineHas_false _ _ _
      (by decide : startsWithL ("SUMMARY:".data.take "UID:".length) "UID:".data = false),
    lineHas_false _ _ _
      (by decide : startsWithL ("SUMMARY:".data.take "DTSTAMP:".length) "DTSTAMP:".data = false),
    (by decide : lineHas "SUMMARY:" "BEGIN:VEVENT" = false),
    (by decide : lineHas "SUMMARY:" "END:VEVENT" = false)]

/-- The `RRULE:` lines of a successful block are exactly the recurrence
segment the Recurrence Encoder produced. -/
theorem build_event_linesWith_RRULE (ns key : String) (ev : EventRec) (tz : Tz)
    (b : Bool) (tzid : String) (now : DT) (lines : List String) (rr : Option String)
    (h : build_event ns key ev tz b tzid now = .ok lines)
    (hrr : build_rrule ev tz = .ok rr) :
    linesWith "RRULE:" lines = rruleLines rr := by
  obtain ⟨sl, el, rr', hsl, hel, hrr', rfl⟩ := build_event_ok_elim _ _ _ _ _ _ _ _ h
  rw [hrr] at hrr'
  simp only [Except.ok.injEq] at hrr'
  subst hrr'
  simp only [linesWith_append]
  rw [linesWith_shape_nil "RRULE:" "DTSTART" sl (dtLines_shape _ _ _ _ _ _ hsl) (by decide)]
  rw [linesWith_shape_nil "RRULE:" "DTEND" el (dtLines_shape _ _ _ _ _ _ hel) (by decide)]
  rw [linesWith_shape_nil "RRULE:" "LOCATION:" _ (locationLines_shape ev) (by decide)]
  rw [linesWith_shape_nil "RRULE:" "DESCRIPTION:" _ (descriptionLines_shape ev) (by decide)]
  rw [linesWith_rruleLines]
  simp [linesWith, List.filter,
    lineHas_false _ _ _
      (by decide : startsWithL ("RRULE:".data.take "UID:".length) "UID:".data = false),
    lineHas_false _ _ _
      (by decide : startsWithL ("RRULE:".data.take "DTSTAMP:".length) "DTSTAMP:".data = false),
    lineHas_false _ _ _
      (by decide : startsWithL ("RRULE:".data.take "SUMMARY:".length) "SUMMARY:".data = false),
    (by decide : lineHas "RRULE:" "BEGIN:VEVENT" = false),
    (by decide : lineHas "RRULE:" "END:VEVENT" = false)]

/-- When the start field is absent or empty, the block has no
`DTSTART`-prefixed line. -/
theorem build_event_linesWith_DTSTART_nil (ns key : String) (ev : EventRec) (tz : Tz)
    (b : Bool) (tzid : String) (now : DT) (lines : List String)
    (hstart : pyStr ev.start = none)
    (h : build_event ns key ev tz b tzid now = .ok lines) :
    linesWith "DTSTART" lines = [] := by
  obtain ⟨sl, el, rr, hsl, hel, hrr, rfl⟩ := build_event_ok_elim _ _ _ _ _ _ _ _ h
  rw [hstart] at hsl
  have hsl' : sl = [] := by
    unfold dtLines at hsl
    cases hsl
    rfl
  subst hsl'
  simp only [linesWith_append]
  rw [linesWith_shape_nil "DTSTART" "DTEND" el (dtLines_shape _ _ _ _ _ _ hel) (by decide)]
  rw [linesWith_shape_nil "DTSTART" "LOCATION:" _ (locationLines_shape ev) (by decide)]
  rw [linesWith_shape_nil "DTSTART" "DESCRIPTION:" _ (descriptionLines_shape ev) (by decide)]
  rw [linesWith_shape_nil "DTSTART" "RRULE:" _ (rruleLines_shape rr) (by decide)]
  simp [linesWith, List.filter,
    lineHas_false _ _ _
      (by decide : startsWithL ("DTSTART".data.take "UID:".length) "UID:".data = false),
    lineHas_false _ _ _
      (by decide : startsWithL ("DTSTART".data.take "DTSTAMP:".length) "DTSTAMP:".data = false),
    lineHas_false _ _ _
      (by decide : startsWithL ("DTSTART".data.take "SUMMARY:".length) "SUMMARY:".data = false),
    (by decide : lineHas "DTSTART" "BEGIN:VEVENT" = false),
    (by decide : lineHas "DTSTART" "END:VEVENT" = false)]

/-- When the end field is absent or empty, the block has no
`DTEND`-prefixed line. -/
theorem build_event_linesWith_DTEND_nil (ns key : String) (ev : EventRec) (tz : Tz)
    (b : Bool) (tzid : String) (now : DT) (lines : List String)
    (hend : pyStr ev.«end» = none)
    (h : build_event ns key ev tz b tzid now = .ok lines) :
    linesWith "DTEND" lines = [] := by
  obtain ⟨sl, el, rr, hsl, hel, hrr, rfl⟩ := build_event_ok_elim _ _ _ _ _ _ _ _ h
  rw [hend] at hel
  have hel' : el = [] := by
    unfold dtLines at hel
    cases hel
    rfl
  subst hel'
  simp only [linesWith_append]
  rw [linesWith_shape_nil "DTEND" "DTSTART" sl (dtLines_shape _ _ _ _ _ _ hsl) (by decide)]
  rw [linesWith_shape_nil "DTEND" "LOCATION:" _ (locationLines_shape ev) (by decide)]
  rw [linesWith_shape_nil "DTEND" "DESCRIPTION:" _ (descriptionLines_shape ev) (by decide)]
  rw [linesWith_shape_nil "DTEND" "RRULE:" _ (rruleLines_shape rr) (by decide)]
  simp [linesWith, List.filter,
    lineHas_false _ _ _
      (by decide : startsWithL ("DTEND".data.take "UID:".length) "UID:".data = false),
    lineHas_false _ _ _
      (by decide : startsWithL ("DTEND".data.take "DTSTAMP:".length) "DTSTAMP:".data = false),
    lineHas_false _ _ _
      (by decide : startsWithL ("DTEND".data.take "SUMMARY:".length) "SUMMARY:".data = false),
    (by decide : lineHas "DTEND" "BEGIN:VEVENT" = false),
    (by decide : lineHas "DTEND" "END:VEVENT" = false)]
/-! ## Verification layer: recurrence encoder lemmas -/

theorem build_rrule_none (ev : EventRec) (tz : Tz) (h : ev.rrule = none) :
    build_rrule ev tz = .ok none := by
  simp [build_rrule, h]

theorem build_rrule_until_some (ev : EventRec) (tz : Tz) (r : Rrule) (u z : String)
    (hr : ev.rrule = some r) (hu : pyStr r.«until» = some u)
    (hz : parse_date_as_utc_z u tz = .ok z) :
    build_rrule ev tz
      = .ok (some (String.intercalate ";"
          (freqPart r ++ intervalPart r ++ ["UNTIL=" ++ z]))) := by
  simp [build_rrule, hr, hu, hz]

theorem build_rrule_until_none (ev : EventRec) (tz : Tz) (r : Rrule)
    (hr : ev.rrule = some r) (hu : pyStr r.«until» = none) :
    build_rrule ev tz
      = .ok (if (freqPart r ++ intervalPart r).isEmpty then none
             else some (String.intercalate ";" (freqPart r ++ intervalPart r))) := by
  simp [build_rrule, hr, hu]

/-- Reassembling a block from successful segments. -/
theorem build_event_ok_intro (ns key : String) (ev : EventRec) (tz : Tz) (b : Bool)
    (tzid : String) (now : DT) (sl el : List String) (rr : Option String)
    (hsl : dtLines "DTSTART" (pyStr ev.start) tz b tzid = .ok sl)
    (hel : dtLines "DTEND" (pyStr ev.«end») tz b tzid = .ok el)
    (hrr : build_rrule ev tz = .ok rr) :
    build_event ns key ev tz b tzid now
      = .ok (["BEGIN:VEVENT", "UID:" ++ (key ++ "@" ++ ns), "DTSTAMP:" ++ fmtUtcZ now]
          ++ sl ++ el ++ ["SUMMARY:" ++ escape_text (summaryOf ev)]
          ++ locationLines ev ++ descriptionLines ev ++ rruleLines rr ++ ["END:VEVENT"]) := by
  unfold build_event
  rw [hsl, hel, hrr]

/-! ## Claim C7 (recurrence encoder output shape) -/

/-- C7: the recurrence encoder yields null when the sub-record is absent
or contributes no components (never an empty string), and otherwise the
semicolon-joined components in the fixed order FREQ, INTERVAL, UNTIL,
each contributed only when the corresponding source field is present
(`freqPart`/`intervalPart` are empty when their field is absent or falsy);
a sub-record with only frequency set yields exactly the upper-cased
FREQ component with no trailing semicolon. -/
theorem c7_build_rrule_components (tz : Tz) (ev : EventRec) :
    (ev.rrule = none → build_rrule ev tz = .ok none)
    ∧ (∀ r, ev.rrule = some r →
        (pyStr r.«until» = none →
          build_rrule ev tz
            = .ok (if (freqPart r ++ intervalPart r).isEmpty then none
                   else some (String.intercalate ";" (freqPart r ++ intervalPart r))))
        ∧ (∀ u z, pyStr r.«until» = some u → parse_iso_as_utc_z u tz = .ok z →
            build_rrule ev tz
              = .ok (some (String.intercalate ";"
                  (freqPart r ++ intervalPart r ++ ["UNTIL=" ++ z])))))
    ∧ (∀ f : String, f ≠ "" →
        build_rrule ⟨none, none, some ⟨some f, none, none⟩, none, none, none, none, none, none⟩ tz
          = .ok (some ("FREQ=" ++ pyUpper f))) := by
  refine ⟨build_rrule_none ev tz, ?_, ?_⟩
  · intro r hr
    refine ⟨build_rrule_until_none ev tz r hr, ?_⟩
    intro u z hu hz
    exact build_rrule_until_some ev tz r u z hr hu (parse_date_of_parse_iso u tz z hz)
  · intro f hf
    have hfp : pyStr (some f) = some f := by simp [pyStr, hf]
    simp [build_rrule, pyStr, hf, freqPart, intervalPart]
    rfl

/-- C7 witness: the frequency-only sub-record at a concrete input. -/
theorem c7_witness :
    build_rrule ⟨none, none, some ⟨some "weekly", none, none⟩,
        none, none, none, none, none, none⟩ (mkFixedTz "UTC" 0)
      = .ok (some ("FREQ=" ++ pyUpper "weekly")) :=
  (c7_build_rrule_components (mkFixedTz "UTC" 0)
    ⟨none, none, none, none, none, none, none, none, none⟩).2.2 "weekly" (by decide)
/-! ## Claim C4 (UNTIL always takes the UTC path, in either mode) -/

/-- C4: when a recurrence sub-record has an until field, the emitted
recurrence rule ends in the UNTIL component rendered by the Timestamp
Normalizer's UTC path (`parse_iso_as_utc_z`), and the block's RRULE line
is the same whichever mode the engine is in. -/
theorem c4_until_utc_path (ns key : String) (ev : EventRec) (tz : Tz) (tzid : String)
    (now : DT) (r : Rrule) (u z : String)
    (hr : ev.rrule = some r) (hu : pyStr r.«until» = some u)
    (hz : parse_iso_as_utc_z u tz = .ok z) :
    build_rrule ev tz
      = .ok (some (String.intercalate ";"
          (freqPart r ++ intervalPart r ++ ["UNTIL=" ++ z])))
    ∧ ∀ b₁ b₂ l₁, build_event ns key ev tz b₁ tzid now = .ok l₁ →
        ∃ l₂, build_event ns key ev tz b₂ tzid now = .ok l₂
          ∧ linesWith "RRULE:" l₁ = linesWith "RRULE:" l₂
          ∧ linesWith "RRULE:" l₁
              = ["RRULE:" ++ String.intercalate ";"
                  (freqPart r ++ intervalPart r ++ ["UNTIL=" ++ z])] := by
  have hrr : build_rrule ev tz
      = .ok (some (String.intercalate ";"
          (freqPart r ++ intervalPart r ++ ["UNTIL=" ++ z]))) :=
    build_rrule_until_some ev tz r u z hr hu (parse_date_of_parse_iso u tz z hz)
  refine ⟨hrr, ?_⟩
  intro b₁ b₂ l₁ h₁
  obtain ⟨sl, el, rr', hsl, hel, hrr', hlines⟩ := build_event_ok_elim _ _ _ _ _ _ _ _ h₁
  obtain ⟨sl₂, hsl₂⟩ := dtLines_ok_mode _ _ _ b₁ b₂ _ _ hsl
  obtain ⟨el₂, hel₂⟩ := dtLines_ok_mode _ _ _ b₁ b₂ _ _ hel
  refine ⟨_, build_event_ok_intro ns key ev tz b₂ tzid now sl₂ el₂ rr' hsl₂ hel₂ hrr', ?_, ?_⟩
  · rw [build_event_linesWith_RRULE _ _ _ _ _ _ _ _ _ h₁ hrr,
      build_event_linesWith_RRULE _ _ _ _ _ _ _ _ _
        (build_event_ok_intro ns key ev tz b₂ tzid now sl₂ el₂ rr' hsl₂ hel₂ hrr') hrr]
  · rw [build_event_linesWith_RRULE _ _ _ _ _ _ _ _ _ h₁ hrr]
    rfl
/-- C4 witness: a concrete until-bearing recurrence, in UTC mode versus
local-with-zone mode. -/
theorem c4_witness :
    ∃ l₂, build_event "ns" "1"
        ⟨none, none, some ⟨some "weekly", none, some "2025-12-31"⟩,
          none, none, none, none, none, none⟩
        (mkFixedTz "UTC" 0) true "UTC" ⟨2025, 1, 1, 0, 0, 0⟩ = .ok l₂
      ∧ linesWith "RRULE:"
          ["BEGIN:VEVENT", "UID:1@ns", "DTSTAMP:20250101T000000Z", "SUMMARY:Zajecia ()",
           "RRULE:FREQ=WEEKLY;UNTIL=20251231T000000Z", "END:VEVENT"]
          = linesWith "RRULE:" l₂
      ∧ linesWith "RRULE:"
          ["BEGIN:VEVENT", "UID:1@ns", "DTSTAMP:20250101T000000Z", "SUMMARY:Zajecia ()",
           "RRULE:FREQ=WEEKLY;UNTIL=20251231T000000Z", "END:VEVENT"]
          = ["RRULE:" ++ String.intercalate ";"
              (freqPart ⟨some "weekly", none, some "2025-12-31"⟩
                ++ intervalPart ⟨some "weekly", none, some "2025-12-31"⟩
                ++ ["UNTIL=" ++ "20251231T000000Z"])] :=
  (c4_until_utc_path "ns" "1"
    ⟨none, none, some ⟨some "weekly", none, some "2025-12-31"⟩,
      none, none, none, none, none, none⟩
    (mkFixedTz "UTC" 0) "UTC" ⟨2025, 1, 1, 0, 0, 0⟩
    ⟨some "weekly", none, some "2025-12-31"⟩ "2025-12-31" "20251231T000000Z"
    rfl rfl rfl).2 false true
    ["BEGIN:VEVENT", "UID:1@ns", "DTSTAMP:20250101T000000Z", "SUMMARY:Zajecia ()",
     "RRULE:FREQ=WEEKLY;UNTIL=20251231T000000Z", "END:VEVENT"] (by decide)
/-! ## Claim C8 (summary always present, with empty-group parenthesis) -/

/-- C8: every successfully built event block contains exactly one SUMMARY
line, equal to the escape of `{title-or-default} ({group})`; when the
group field is empty or absent the summary ends in a space followed by an
empty parenthesis pair rather than omitting the parenthesis. -/
theorem c8_summary_always (ns key : String) (ev : EventRec) (tz : Tz) (b : Bool)
    (tzid : String) (now : DT) (lines : List String)
    (h : build_event ns key ev tz b tzid now = .ok lines) :
    linesWith "SUMMARY:" lines
      = ["SUMMARY:" ++ escape_text (titleOf ev ++ " (" ++ groupOf ev ++ ")")]
    ∧ (groupOf ev = "" →
        linesWith "SUMMARY:" lines
          = ["SUMMARY:" ++ (escape_text (titleOf ev) ++ " ()")]) := by
  have hmain := build_event_linesWith_SUMMARY ns key ev tz b tzid now lines h
  constructor
  · exact hmain
  · intro hg
    rw [hmain]
    have hsum : summaryOf ev = titleOf ev ++ " ()" := by
      unfold summaryOf
      rw [hg, String.append_empty, String.append_assoc]
      rfl
    rw [hsum, escape_text_append]
    rfl

/-- C8 witness: a record with absent title and group fields. -/
theorem c8_witness :
    linesWith "SUMMARY:"
      ["BEGIN:VEVENT", "UID:1@ns", "DTSTAMP:20250101T000000Z",
       "SUMMARY:Zajecia ()", "END:VEVENT"]
      = ["SUMMARY:"
          ++ (escape_text (titleOf ⟨none, none, none, none, none, none, none, none, none⟩)
              ++ " ()")] :=
  (c8_summary_always "ns" "1" ⟨none, none, none, none, none, none, none, none, none⟩
    (mkFixedTz "UTC" 0) false "" ⟨2025, 1, 1, 0, 0, 0⟩
    ["BEGIN:VEVENT", "UID:1@ns", "DTSTAMP:20250101T000000Z",
     "SUMMARY:Zajecia ()", "END:VEVENT"] (by decide)).2 rfl
/-! ## Verification layer: whole-run lemmas -/

/-- In a successful run, the `UID:` lines of the produced blocks are, in
order, exactly `UID:{key}@{namespace}` for the record keys of the input. -/
theorem buildAll_uids (ns : String) (tz : Tz) (b : Bool) (tzid : String) (now : DT)
    (items : List (String × Item)) (bs : List (List String))
    (h : buildAll ns tz b tzid now items = .ok bs) :
    bs.map (linesWith "UID:")
      = (recKeys items).map (fun k => ["UID:" ++ (k ++ "@" ++ ns)]) := by
  induction items generalizing bs with
  | nil =>
    cases h
    rfl
  | cons it rest ih =>
    obtain ⟨k, itv⟩ := it
    cases itv with
    | other =>
      exact ih bs h
    | record ev =>
      unfold buildAll at h
      cases hb : build_event ns k ev tz b tzid now with
      | error e => rw [hb] at h; exact absurd h (by simp)
      | ok bblock =>
        rw [hb] at h
        cases hrest : buildAll ns tz b tzid now rest with
        | error e => rw [hrest] at h; exact absurd h (by simp)
        | ok bs' =>
          rw [hrest] at h
          simp only [Except.ok.injEq] at h
          subst h
          simp only [List.map_cons, recKeys]
          exact congrArg₂ List.cons
            (build_event_linesWith_UID ns k ev tz b tzid now bblock hb) (ih bs' hrest)
/-! ## Claim C3 (unique-id determinism across runs) -/

/-- C3: two runs over the same absolute input path and the same record
identifiers produce identical unique ids, each equal to
`{identifier}@{namespace}` with the namespace derived once per run by the
stable hash of the absolute input path — whatever generation clocks the
two runs observe. -/
theorem c3_uid_determinism (hash : String → String) (path : String) (tz : Tz)
    (b : Bool) (tzid : String) (items : List (String × Item)) (now₁ now₂ : DT)
    (bs₁ bs₂ : List (List String))
    (h₁ : runEngine hash path tz b tzid now₁ items = .ok bs₁)
    (h₂ : runEngine hash path tz b tzid now₂ items = .ok bs₂) :
    bs₁.map (linesWith "UID:") = bs₂.map (linesWith "UID:")
    ∧ bs₁.map (linesWith "UID:")
        = (recKeys items).map (fun k => ["UID:" ++ (k ++ "@" ++ hash path)]) := by
  have a₁ := buildAll_uids (hash path) tz b tzid now₁ items bs₁ h₁
  have a₂ := buildAll_uids (hash path) tz b tzid now₂ items bs₂ h₂
  exact ⟨a₁.trans a₂.symm, a₁⟩

/-- C3 witness: the same input run at two different clocks. -/
theorem c3_witness :
    [["BEGIN:VEVENT", "UID:1@ns123", "DTSTAMP:20250101T000000Z",
        "SUMMARY:Zajecia ()", "END:VEVENT"]].map (linesWith "UID:")
      = [["BEGIN:VEVENT", "UID:1@ns123", "DTSTAMP:20260202T030405Z",
          "SUMMARY:Zajecia ()", "END:VEVENT"]].map (linesWith "UID:")
    ∧ [["BEGIN:VEVENT", "UID:1@ns123", "DTSTAMP:20250101T000000Z",
        "SUMMARY:Zajecia ()", "END:VEVENT"]].map (linesWith "UID:")
      = (recKeys [("1", Item.record ⟨none, none, none, none, none, none, none, none, none⟩)]).map
          (fun k => ["UID:" ++ (k ++ "@" ++ (fun _ : String => "ns123") "/abs/input.json")]) := by
  have := c3_uid_determinism (fun _ => "ns123") "/abs/input.json" (mkFixedTz "UTC" 0)
    false "" [("1", Item.record ⟨none, none, none, none, none, none, none, none, none⟩)]
    ⟨2025, 1, 1, 0, 0, 0⟩ ⟨2026, 2, 2, 3, 4, 5⟩
    [["BEGIN:VEVENT", "UID:1@ns123", "DTSTAMP:20250101T000000Z",
      "SUMMARY:Zajecia ()", "END:VEVENT"]]
    [["BEGIN:VEVENT", "UID:1@ns123", "DTSTAMP:20260202T030405Z",
      "SUMMARY:Zajecia ()", "END:VEVENT"]]
    (by decide) (by decide)
  simpa using this

/-! ## Claim C9 (malformed mapping entries are skipped, not counted) -/

/-- C9: an entry whose value is not a well-formed record contributes
nothing: the run's output and its reported event count are those of the
same input without that entry, and no error arises from it. -/
theorem c9_skip_malformed (ns : String) (tz : Tz) (b : Bool) (tzid : String) (now : DT)
    (pre post : List (String × Item)) (k : String) :
    buildAll ns tz b tzid now (pre ++ (k, Item.other) :: post)
      = buildAll ns tz b tzid now (pre ++ post)
    ∧ runCount ns tz b tzid now (pre ++ (k, Item.other) :: post)
      = runCount ns tz b tzid now (pre ++ post) := by
  have key : ∀ l : List (String × Item),
      buildAll ns tz b tzid now (l ++ (k, Item.other) :: post)
        = buildAll ns tz b tzid now (l ++ post) := by
    intro l
    induction l with
    | nil => rfl
    | cons it rest ih =>
      obtain ⟨k', itv⟩ := it
      cases itv with
      | other => exact ih
      | record ev =>
        show (match build_event ns k' ev tz b tzid now with
          | Except.error e => (Except.error e : Except IcsErr (List (List String)))
          | Except.ok bb =>
            match buildAll ns tz b tzid now (rest ++ (k, Item.other) :: post) with
            | Except.error e => Except.error e
            | Except.ok bs => Except.ok (bb :: bs)) = _
        rw [ih]
        rfl
  exact ⟨key pre, by unfold runCount; rw [key pre]⟩
/-! ## Claim C1 (behavior on unparseable start/end timestamps) -/

/-- A truthy but unparseable timestamp string makes the `DTSTART`/`DTEND`
handling raise `MalformedTimestamp`, in either mode. -/
theorem dtLines_error (name : String) (s : String) (tz : Tz) (b : Bool) (tzid : String)
    (hp : parseChars (replaceZ s).data = none) :
    dtLines name (some s) tz b tzid = .error .malformedTimestamp := by
  cases b <;> simp [dtLines, parse_iso_with_tzid, parse_iso_as_utc_z, hp]

/-- C1 counterexample: a run over one well-formed record followed by a
record whose start is unparseable aborts with `MalformedTimestamp`: no
block is emitted for any record, contradicting the claim that the bad
field is omitted and all other records are still emitted. -/
theorem c1_counterexample :
    buildAll "ns" (mkFixedTz "UTC" 0) false "" ⟨2025, 1, 1, 0, 0, 0⟩
      [("1", Item.record ⟨none, none, none, none, none, none, none, none, none⟩),
       ("2", Item.record ⟨some "notadate", none, none, none, none, none, none, none, none⟩)]
      = .error .malformedTimestamp := by decide

/-- A truthy start field that the timestamp parser rejects makes
`build_event` raise `MalformedTimestamp`. -/
theorem build_event_error_of_bad_start (ns key : String) (ev : EventRec) (tz : Tz)
    (b : Bool) (tzid : String) (now : DT) (s : String)
    (hs : pyStr ev.start = some s) (hp : parseChars (replaceZ s).data = none) :
    build_event ns key ev tz b tzid now = .error .malformedTimestamp := by
  unfold build_event
  rw [hs, dtLines_error "DTSTART" s tz b tzid hp]

/-- A truthy end field that the timestamp parser rejects makes
`build_event` raise `MalformedTimestamp` (whether or not the start field
parses: a failing start raises the same error first). -/
theorem build_event_error_of_bad_end (ns key : String) (ev : EventRec) (tz : Tz)
    (b : Bool) (tzid : String) (now : DT) (s : String)
    (hend : pyStr ev.«end» = some s) (hp : parseChars (replaceZ s).data = none) :
    build_event ns key ev tz b tzid now = .error .malformedTimestamp := by
  unfold build_event
  cases hsl : dtLines "DTSTART" (pyStr ev.start) tz b tzid with
  | error e => cases e; rfl
  | ok sl => rw [hend, dtLines_error "DTEND" s tz b tzid hp]

/-- An error while building any record's block aborts the whole run: the
loop of `main` has no handler, so `buildAll` produces an error, never a
partial list of blocks. -/
theorem buildAll_aborts_of_event_error (ns key : String) (ev : EventRec) (tz : Tz)
    (b : Bool) (tzid : String) (now : DT) (e₀ : IcsErr)
    (hbe : build_event ns key ev tz b tzid now = .error e₀)
    (pre post : List (String × Item)) :
    ∃ e, buildAll ns tz b tzid now (pre ++ (key, Item.record ev) :: post) = .error e := by
  induction pre with
  | nil =>
    refine ⟨e₀, ?_⟩
    show (match build_event ns key ev tz b tzid now with
      | Except.error e => (Except.error e : Except IcsErr (List (List String)))
      | Except.ok bb =>
        match buildAll ns tz b tzid now post with
        | Except.error e => Except.error e
        | Except.ok bs => Except.ok (bb :: bs)) = _
    rw [hbe]
  | cons it rest ih =>
    obtain ⟨k', itv⟩ := it
    cases itv with
    | other => exact ih
    | record ev' =>
      obtain ⟨e, he⟩ := ih
      cases hb : build_event ns k' ev' tz b tzid now with
      | error e' =>
        refine ⟨e', ?_⟩
        show (match build_event ns k' ev' tz b tzid now with
          | Except.error e => (Except.error e : Except IcsErr (List (List String)))
          | Except.ok bb =>
            match buildAll ns tz b tzid now (rest ++ (key, Item.record ev) :: post) with
            | Except.error e => Except.error e
            | Except.ok bs => Except.ok (bb :: bs)) = _
        rw [hb]
      | ok bb =>
        refine ⟨e, ?_⟩
        show (match build_event ns k' ev' tz b tzid now with
          | Except.error e => (Except.error e : Except IcsErr (List (List String)))
          | Except.ok bb =>
            match buildAll ns tz b tzid now (rest ++ (key, Item.record ev) :: post) with
            | Except.error e => Except.error e
            | Except.ok bs => Except.ok (bb :: bs)) = _
        rw [hb, he]

/-- C1 (amended): a record whose start (or end) field is absent or empty
has the corresponding field omitted from its block and the run continues;
but a start or end field that is a truthy string the timestamp parser
rejects raises `MalformedTimestamp`, which aborts the whole run: the
record's block is not emitted and neither is any other record's. -/
theorem c1_unparseable_timestamp_aborts (ns key : String) (ev : EventRec) (tz : Tz)
    (b : Bool) (tzid : String) (now : DT) :
    (pyStr ev.start = none → ∀ lines, build_event ns key ev tz b tzid now = .ok lines →
      linesWith "DTSTART" lines = [])
    ∧ (pyStr ev.«end» = none → ∀ lines, build_event ns key ev tz b tzid now = .ok lines →
      linesWith "DTEND" lines = [])
    ∧ (∀ s, pyStr ev.start = some s → parseChars (replaceZ s).data = none →
        build_event ns key ev tz b tzid now = .error .malformedTimestamp
        ∧ ∀ pre post, ∃ e, buildAll ns tz b tzid now
            (pre ++ (key, Item.record ev) :: post) = .error e)
    ∧ (∀ s, pyStr ev.«end» = some s → parseChars (replaceZ s).data = none →
        build_event ns key ev tz b tzid now = .error .malformedTimestamp
        ∧ ∀ pre post, ∃ e, buildAll ns tz b tzid now
            (pre ++ (key, Item.record ev) :: post) = .error e) := by
  refine ⟨?_, ?_, ?_, ?_⟩
  · intro hstart lines h
    exact build_event_linesWith_DTSTART_nil ns key ev tz b tzid now lines hstart h
  · intro hend lines h
    exact build_event_linesWith_DTEND_nil ns key ev tz b tzid now lines hend h
  · intro s hs hp
    have hbe := build_event_error_of_bad_start ns key ev tz b tzid now s hs hp
    exact ⟨hbe, fun pre post =>
      buildAll_aborts_of_event_error ns key ev tz b tzid now .malformedTimestamp hbe pre post⟩
  · intro s hend hp
    have hbe := build_event_error_of_bad_end ns key ev tz b tzid now s hend hp
    exact ⟨hbe, fun pre post =>
      buildAll_aborts_of_event_error ns key ev tz b tzid now .malformedTimestamp hbe pre post⟩

/-- C1 witness: the amended statement at concrete inputs — an absent
start omits `DTSTART`, while an unparseable start (record 2) or end
(record 3) makes `build_event` raise and the run containing the record
abort. -/
theorem c1_witness :
    linesWith "DTSTART"
      ["BEGIN:VEVENT", "UID:1@ns", "DTSTAMP:20250101T000000Z",
       "SUMMARY:Zajecia ()", "END:VEVENT"] = []
    ∧ build_event "ns" "2"
        ⟨some "notadate", none, none, none, none, none, none, none, none⟩
        (mkFixedTz "UTC" 0) false "" ⟨2025, 1, 1, 0, 0, 0⟩
        = .error .malformedTimestamp
    ∧ build_event "ns" "3"
        ⟨none, some "notadate", none, none, none, none, none, none, none⟩
        (mkFixedTz "UTC" 0) false "" ⟨2025, 1, 1, 0, 0, 0⟩
        = .error .malformedTimestamp
    ∧ ∃ e, buildAll "ns" (mkFixedTz "UTC" 0) false "" ⟨2025, 1, 1, 0, 0, 0⟩
        ([] ++ ("3", Item.record
          ⟨none, some "notadate", none, none, none, none, none, none, none⟩) :: [])
        = .error e :=
  ⟨(c1_unparseable_timestamp_aborts "ns" "1"
      ⟨none, none, none, none, none, none, none, none, none⟩
      (mkFixedTz "UTC" 0) false "" ⟨2025, 1, 1, 0, 0, 0⟩).1 rfl
      ["BEGIN:VEVENT", "UID:1@ns", "DTSTAMP:20250101T000000Z",
       "SUMMARY:Zajecia ()", "END:VEVENT"] (by decide),
   ((c1_unparseable_timestamp_aborts "ns" "2"
      ⟨some "notadate", none, none, none, none, none, none, none, none⟩
      (mkFixedTz "UTC" 0) false "" ⟨2025, 1, 1, 0, 0, 0⟩).2.2.1 "notadate" rfl
      (by decide)).1,
   ((c1_unparseable_timestamp_aborts "ns" "3"
      ⟨none, some "notadate", none, none, none, none, none, none, none⟩
      (mkFixedTz "UTC" 0) false "" ⟨2025, 1, 1, 0, 0, 0⟩).2.2.2 "notadate" rfl
      (by decide)).1,
   ((c1_unparseable_timestamp_aborts "ns" "3"
      ⟨none, some "notadate", none, none, none, none, none, none, none⟩
      (mkFixedTz "UTC" 0) false "" ⟨2025, 1, 1, 0, 0, 0⟩).2.2.2 "notadate" rfl
      (by decide)).2 [] []⟩

/-! ## Claim C10 (record filter predicate) -/

/-- C10: the filter includes an event exactly when its faculty equals the
selected code and the group field — split on slash and comma into trimmed
non-empty tokens — has a token equal case-insensitively to W or to one of
the three configured group codes; a group yielding no tokens is excluded
even when the faculty matches. -/
theorem c10_filter_iff (ev : FilterEvent) (fac lk l p : String) :
    should_include_event ev fac lk l p = true ↔
      (ev.faculty = some fac
       ∧ ∃ t ∈ tokenize_groups (pyStrip (ev.group.getD "")),
           (pyUpper t = "W" ∨ pyLower t ∈ [pyLower lk, pyLower l, pyLower p])) := by
  unfold should_include_event
  by_cases hf : ev.faculty = some fac
  · simp only [hf, ne_eq, not_true_eq_false, if_false, true_and]
    cases hie : (tokenize_groups (pyStrip (ev.group.getD ""))).isEmpty with
    | true =>
      have hnil : tokenize_groups (pyStrip (ev.group.getD "")) = [] := by
        simpa using hie
      rw [hnil]
      simp
    | false =>
      cases haw : (tokenize_groups (pyStrip (ev.group.getD ""))).any
          (fun tok => pyUpper tok == "W") with
      | true =>
        obtain ⟨t, ht, hwt⟩ := List.any_eq_true.mp haw
        simp only [hie, haw, Bool.false_eq_true, if_false, if_true]
        exact iff_of_true trivial ⟨t, ht, Or.inl (by simpa using hwt)⟩
      | false =>
        simp only [hie, haw, Bool.false_eq_true, if_false]
        rw [List.any_eq_true]
        constructor
        · rintro ⟨t, ht, hmem⟩
          exact ⟨t, ht, Or.inr (by simpa using hmem)⟩
        · rintro ⟨t, ht, hupper | hmem⟩
          · have hcontra : ((tokenize_groups (pyStrip (ev.group.getD ""))).any
                (fun tok => pyUpper tok == "W")) = true :=
              List.any_eq_true.mpr ⟨t, ht, by simpa using hupper⟩
            exact absurd hcontra (by simp [haw])
          · exact ⟨t, ht, by simpa using hmem⟩
  · simp [hf]

/-- C10 witness: a lecture token W with matching faculty is included. -/
theorem c10_witness :
    should_include_event ⟨some "IwIKs1", some "w"⟩ "IwIKs1" "LK2" "L3" "P4" = true :=
  (c10_filter_iff ⟨some "IwIKs1", some "w"⟩ "IwIKs1" "LK2" "L3" "P4").mpr
    ⟨rfl, "w", by decide, Or.inl (by decide)⟩

end PlanToIcs
